import Mathlib

/- Shallow embedding of the robogen viewer core (src/viewer/Viewer.cpp):
the frame-pacing scheduler (`Viewer::frame`), scene composition
(`Viewer::configureScene`), screen recording (`Viewer::record` and
`SnapImageDrawCallback::operator()`), and construction (`Viewer::init`).

Modelling conventions:
- C++ `double` time quantities are modelled as `ℚ` (exact arithmetic; the
  claims under study are about control flow and ordering, not rounding).
- The wall clock is external: each call to `frame` receives the nonnegative
  delta `tickDelta` measured between `tick1` and `tick2` in the source.
- The keyboard handler is external: `paused` is an input boolean.
- `MAX_TIME_BETWEEN_FRAMES` is a constant declared in the header (not part
  of the sources under study); it is passed as the parameter
  `maxTimeBetweenFrames`, positive per the spec's starvation bound.
- A C++ expression whose evaluation is undefined (modulo by zero) is
  modelled by `Option`: `none` marks undefined behaviour, and the C++
  short-circuit evaluation order of `||` and `&&` is preserved, so a
  subexpression C++ would not evaluate cannot make the result `none`.
- File-system writes performed by the draw callback are modelled as a list
  of file names produced so far, threaded through the callback.
-/

namespace Robogen

/-- Configuration fields of `Viewer` fixed by `Viewer::init`. -/
structure ViewerConfig where
  speedFactor : ℚ
  recording : Bool
  recordFrequency : Nat
  recordDirectoryName : String
deriving Repr, DecidableEq

/-- State of the `SnapImageDrawCallback` object installed as the camera's
post-draw callback: its `_filename` and `_snapImageOnNextFrame` members. -/
structure SnapState where
  filename : String
  snapImageOnNextFrame : Bool
deriving Repr, DecidableEq

/-- Mutable state of `Viewer` relevant to the scheduler and recorder:
`elapsedWallTime`, `timeSinceLastFrame`, `frameCount`, and the post-draw
callback when one is installed (`none` when recording is off, since
`init` installs the callback only in the recording branch). -/
structure ViewerState where
  elapsedWallTime : ℚ
  timeSinceLastFrame : ℚ
  frameCount : Nat
  snap : Option SnapState
deriving Repr, DecidableEq

/-- Embedding of `Viewer::init`: stores the parameters and zeroes the clocks; installs
the snap-image callback only when `recording` is true. No validation of
any parameter is performed anywhere in the function. `startPaused` is
forwarded to the external keyboard handler and does not enter this state. -/
def Viewer.init (startPaused : Bool) (speedFactor : ℚ) (recording : Bool)
    (recordFrequency : Nat) (recordDirectoryName : String) :
    ViewerConfig × ViewerState :=
  (⟨speedFactor, recording, recordFrequency, recordDirectoryName⟩,
   ⟨0, 0, 0, if recording then some ⟨"", false⟩ else none⟩)

/-- The clock update at the top of `Viewer::frame` (lines 213-222): the
wall-clock delta since the previous call accumulates into
`elapsedWallTime` and `timeSinceLastFrame` only while unpaused. -/
def Viewer.tick (paused : Bool) (s : ViewerState) (tickDelta : ℚ) :
    ViewerState :=
  if paused then s
  else
    { s with
      elapsedWallTime := s.elapsedWallTime + tickDelta,
      timeSinceLastFrame := s.timeSinceLastFrame + tickDelta }

/-- The C++ expression `numTimeSteps % recordFrequency == 0`:
undefined (`none`) when `recordFrequency` is zero. -/
def modTest (recordFrequency numTimeSteps : Nat) : Option Bool :=
  if recordFrequency = 0 then none
  else some (decide (numTimeSteps % recordFrequency = 0))

/-- The C++ expression `recording && (numTimeSteps % recordFrequency == 0)`
with the short-circuit semantics of `&&`: the modulo is evaluated only
when `recording` holds. -/
def cadence (recording : Bool) (recordFrequency numTimeSteps : Nat) :
    Option Bool :=
  if recording then modTest recordFrequency numTimeSteps else some false

/-- Embedding of `boost::format("%|04|") % frameCount`: decimal rendering of the counter
left-padded with zeros to a minimum width of four characters. -/
def zeroPad4 (n : Nat) : String :=
  let s := toString n
  if s.length < 4 then String.mk (List.replicate (4 - s.length) '0') ++ s
  else s

/-- Embedding of `Viewer::record`: when the camera's post-draw callback downcasts to
`SnapImageDrawCallback` (it was installed by `init` iff recording), set its
file name to `recordDirectoryName/<frameCount padded to 4>.jpg`, arm the
one-shot flag, and increment `frameCount`; otherwise do nothing. -/
def Viewer.record (cfg : ViewerConfig) (s : ViewerState) : ViewerState :=
  match s.snap with
  | none => s
  | some _ =>
    { s with
      snap := some
        ⟨cfg.recordDirectoryName ++ "/" ++ zeroPad4 s.frameCount ++ ".jpg",
         true⟩,
      frameCount := s.frameCount + 1 }

/-- Embedding of `SnapImageDrawCallback::operator()`, run by the render pipeline after a
draw: if the one-shot flag is off, do nothing; otherwise attempt the image
write (`writeOk` abstracts `osgDB::writeImageFile`), appending the file to
the file system on success only, and disarm the flag unconditionally.
It never touches `frameCount`. -/
def snapCallbackRun (writeOk : Bool) (cb : SnapState) (files : List String) :
    SnapState × List String :=
  if cb.snapImageOnNextFrame = false then (cb, files)
  else
    (⟨cb.filename, false⟩,
     if writeOk then files ++ [cb.filename] else files)

/-- The throttle condition of `Viewer::frame` line 235:
`simulatedTime > elapsedWallTime * speedFactor` on the post-tick state. -/
def throttled (cfg : ViewerConfig) (s1 : ViewerState)
    (simulatedTime : ℚ) : Bool :=
  decide (simulatedTime > s1.elapsedWallTime * cfg.speedFactor)

/-- The starvation condition of `Viewer::frame` line 236:
`timeSinceLastFrame >= MAX_TIME_BETWEEN_FRAMES` on the post-tick state. -/
def starved (maxTimeBetweenFrames : ℚ) (s1 : ViewerState) : Bool :=
  decide (s1.timeSinceLastFrame ≥ maxTimeBetweenFrames)

/-- Result of one call to `Viewer::frame`: whether `viewer->frame()` was
invoked (`drew`), the boolean return value (`mayAdvance`), whether
`Viewer::record` was invoked (`recorded`), and the state after the call. -/
structure FrameResult where
  drew : Bool
  mayAdvance : Bool
  recorded : Bool
  state : ViewerState
deriving Repr, DecidableEq

/-- Embedding of `Viewer::frame` (lines 212-256). The draw decision (line 233) is the
short-circuit disjunction `paused || (recording && mod) || throttle ||
starvation`; on draw, `timeSinceLastFrame` resets, and if `paused ||
throttle` the call returns `false` early (line 247) without reaching the
recording dispatch (line 251). `none` models the undefined modulo when the
C++ control flow reaches it with a zero `recordFrequency`; when `paused`
the `||` short-circuits before it, so the call is defined regardless. -/
def Viewer.frame (cfg : ViewerConfig) (maxTimeBetweenFrames : ℚ)
    (paused : Bool) (s : ViewerState) (simulatedTime : ℚ)
    (numTimeSteps : Nat) (tickDelta : ℚ) : Option FrameResult :=
  let s1 := Viewer.tick paused s tickDelta
  if paused then
    some ⟨true, false, false, { s1 with timeSinceLastFrame := 0 }⟩
  else
    match cadence cfg.recording cfg.recordFrequency numTimeSteps with
    | none => none
    | some cap =>
      if cap || throttled cfg s1 simulatedTime ||
          starved maxTimeBetweenFrames s1 then
        let s2 := { s1 with timeSinceLastFrame := 0 }
        if throttled cfg s2 simulatedTime then
          some ⟨true, false, false, s2⟩
        else if cap then
          some ⟨true, true, true, Viewer.record cfg s2⟩
        else
          some ⟨true, true, false, s2⟩
      else
        if cap then
          some ⟨false, true, true, Viewer.record cfg s1⟩
        else
          some ⟨false, true, false, s1⟩

/-- Outcome of `RobogenUtils::createRenderModel` followed by
`RenderModel::initRenderModel` for one body part (both are collaborators
outside the sources under study; `configureScene` only branches on NULL
and on the boolean result): creation returns NULL, initialization returns
false, or both succeed. -/
inductive PartOutcome where
  | createFail
  | initFail
  | ok
deriving Repr, DecidableEq

/-- A node attached to the display root `this->root` by
`Viewer::configureScene`: the root node of a body-part render model, the
terrain render, or a box-obstacle render. -/
inductive Renderable where
  | bodyPart (i : Nat)
  | terrain
  | obstacle (i : Nat)
deriving Repr, DecidableEq

/-- The body-part loop of `Viewer::configureScene` (lines 149-169): for
each part in order, on creation failure or initialization failure return
false immediately; on success append the part's root node to the display
root (`this->root->addChild`, line 168) and continue. `i` is the loop
index, `root` the children of the display root. -/
def configureSceneLoop :
    List PartOutcome → Nat → List Renderable → Bool × List Renderable
  | [], _, root => (true, root)
  | PartOutcome.createFail :: _, _, root => (false, root)
  | PartOutcome.initFail :: _, _, root => (false, root)
  | PartOutcome.ok :: rest, i, root =>
      configureSceneLoop rest (i + 1) (root ++ [Renderable.bodyPart i])

/-- Embedding of `Viewer::configureScene` (lines 144-206): run the body-part loop on the
display root's current children; on failure return false with the root as
the loop left it; on success attach the terrain render and one obstacle
render per obstacle, in order, and return true. -/
def configureScene (bodyParts : List PartOutcome) (numObstacles : Nat)
    (root : List Renderable) : Bool × List Renderable :=
  match configureSceneLoop bodyParts 0 root with
  | (false, r) => (false, r)
  | (true, r) =>
      (true,
       r ++ [Renderable.terrain] ++
         (List.range numObstacles).map Renderable.obstacle)

/-- One qualifying recording step with its write succeeding: the
`Viewer::record` dispatch arms the callback, then the next presented frame
runs `SnapImageDrawCallback::operator()`, which writes the armed file and
disarms itself. -/
def captureStep (cfg : ViewerConfig) (s : ViewerState)
    (files : List String) : ViewerState × List String :=
  let s2 := Viewer.record cfg s
  match s2.snap with
  | none => (s2, files)
  | some cb =>
    let out := snapCallbackRun true cb files
    ({ s2 with snap := some out.1 }, out.2)

/-- Iterated capture: `m` successive qualifying recording steps, every write succeeding. -/
def captureRun (cfg : ViewerConfig) :
    Nat → ViewerState × List String → ViewerState × List String
  | 0, p => p
  | m + 1, p => captureRun cfg m (captureStep cfg p.1 p.2)

-- Helper lemmas

/-- The function `Viewer::record` never touches `timeSinceLastFrame`. -/
lemma record_timeSinceLastFrame (cfg : ViewerConfig) (s : ViewerState) :
    (Viewer.record cfg s).timeSinceLastFrame = s.timeSinceLastFrame := by
  unfold Viewer.record
  cases s.snap <;> rfl

/-- The function `Viewer::record` never touches `elapsedWallTime`. -/
lemma record_elapsedWallTime (cfg : ViewerConfig) (s : ViewerState) :
    (Viewer.record cfg s).elapsedWallTime = s.elapsedWallTime := by
  unfold Viewer.record
  cases s.snap <;> rfl

/-- With the callback installed, `Viewer::record` increments `frameCount`. -/
lemma record_frameCount (cfg : ViewerConfig) (s : ViewerState)
    (cb : SnapState) (h : s.snap = some cb) :
    (Viewer.record cfg s).frameCount = s.frameCount + 1 := by
  unfold Viewer.record
  rw [h]

/-- With the callback installed, `Viewer::record` arms it with the padded
sequential file name. -/
lemma record_snap (cfg : ViewerConfig) (s : ViewerState)
    (cb : SnapState) (h : s.snap = some cb) :
    (Viewer.record cfg s).snap = some
      ⟨cfg.recordDirectoryName ++ "/" ++ zeroPad4 s.frameCount ++ ".jpg",
       true⟩ := by
  unfold Viewer.record
  rw [h]

/-- Resetting `timeSinceLastFrame` does not change the throttle condition,
which reads only `elapsedWallTime`. -/
lemma throttled_reset (cfg : ViewerConfig) (s1 : ViewerState) (t : ℚ) :
    throttled cfg { s1 with timeSinceLastFrame := 0 } t = throttled cfg s1 t :=
  rfl

/-- The body-part loop on `k` successes followed by a failing part returns
false with exactly the `k` successful parts appended to the root. -/
lemma configureSceneLoop_fail (f : PartOutcome) (hf : f ≠ PartOutcome.ok)
    (rest : List PartOutcome) :
    ∀ (k i : Nat) (root : List Renderable),
      configureSceneLoop (List.replicate k PartOutcome.ok ++ f :: rest) i root
        = (false, root ++ (List.range' i k).map Renderable.bodyPart) := by
  intro k
  induction k with
  | zero =>
    intro i root
    cases f with
    | ok => exact absurd rfl hf
    | createFail => simp [configureSceneLoop]
    | initFail => simp [configureSceneLoop]
  | succ k ih =>
    intro i root
    rw [List.replicate_succ, List.cons_append]
    show configureSceneLoop _ (i + 1) (root ++ [Renderable.bodyPart i]) = _
    rw [ih (i + 1) (root ++ [Renderable.bodyPart i])]
    simp [List.range'_succ]

/-- Whenever the cadence expression is defined, `Viewer::frame` is defined:
every control-flow path ends in a result. -/
lemma frame_isSome_of_cadence (cfg : ViewerConfig) (maxTimeBetweenFrames : ℚ)
    (paused : Bool) (s : ViewerState) (simulatedTime : ℚ) (numTimeSteps : Nat)
    (tickDelta : ℚ) (cap : Bool)
    (hc : cadence cfg.recording cfg.recordFrequency numTimeSteps = some cap) :
    (Viewer.frame cfg maxTimeBetweenFrames paused s simulatedTime numTimeSteps
        tickDelta).isSome = true := by
  unfold Viewer.frame
  cases paused with
  | true => rfl
  | false =>
    simp only [Bool.false_eq_true, if_false, hc]
    split
    · split
      · rfl
      · split <;> rfl
    · split <;> rfl

/-- Closed form of `Viewer::frame` under pause: the `||` of line 233
short-circuits on `isPaused()`, the call draws, resets
`timeSinceLastFrame`, and returns false at line 247 before the recording
dispatch. -/
lemma frame_paused_eq (cfg : ViewerConfig) (maxTimeBetweenFrames : ℚ)
    (s : ViewerState) (simulatedTime : ℚ) (numTimeSteps : Nat)
    (tickDelta : ℚ) :
    Viewer.frame cfg maxTimeBetweenFrames true s simulatedTime numTimeSteps
        tickDelta
      = some ⟨true, false, false, { s with timeSinceLastFrame := 0 }⟩ := by
  simp [Viewer.frame, Viewer.tick]

/-- When the C++ control flow reaches the unguarded modulo (unpaused and
the cadence expression undefined), `Viewer::frame` is undefined. -/
lemma frame_none_of_cadence_none (cfg : ViewerConfig)
    (maxTimeBetweenFrames : ℚ) (s : ViewerState) (simulatedTime : ℚ)
    (numTimeSteps : Nat) (tickDelta : ℚ)
    (hc : cadence cfg.recording cfg.recordFrequency numTimeSteps = none) :
    Viewer.frame cfg maxTimeBetweenFrames false s simulatedTime numTimeSteps
        tickDelta = none := by
  unfold Viewer.frame
  simp [hc]

/-- Closed form of `Viewer::frame` whenever the cadence expression is
defined: the four mutually exclusive outcomes in priority order —
pause-or-throttle draw returning false, cadence draw with capture,
starvation draw, no draw. -/
lemma frame_characterization (cfg : ViewerConfig) (maxTimeBetweenFrames : ℚ)
    (paused : Bool) (s : ViewerState) (simulatedTime : ℚ) (numTimeSteps : Nat)
    (tickDelta : ℚ) (cap : Bool)
    (hc : cadence cfg.recording cfg.recordFrequency numTimeSteps = some cap) :
    Viewer.frame cfg maxTimeBetweenFrames paused s simulatedTime numTimeSteps
        tickDelta
      = some (
        if paused || throttled cfg (Viewer.tick paused s tickDelta)
            simulatedTime then
          ⟨true, false, false,
            { Viewer.tick paused s tickDelta with timeSinceLastFrame := 0 }⟩
        else if cap then
          ⟨true, true, true,
            Viewer.record cfg
              { Viewer.tick paused s tickDelta with
                  timeSinceLastFrame := 0 }⟩
        else if starved maxTimeBetweenFrames (Viewer.tick paused s tickDelta)
            then
          ⟨true, true, false,
            { Viewer.tick paused s tickDelta with timeSinceLastFrame := 0 }⟩
        else ⟨false, true, false, Viewer.tick paused s tickDelta⟩) := by
  unfold Viewer.frame
  cases paused with
  | true => simp
  | false =>
    simp only [Bool.false_eq_true, if_false, hc, Bool.false_or]
    rw [throttled_reset]
    cases hth : throttled cfg (Viewer.tick false s tickDelta) simulatedTime
      with
    | true => cases cap <;> simp
    | false =>
      cases cap with
      | true => simp
      | false =>
        cases hst : starved maxTimeBetweenFrames
            (Viewer.tick false s tickDelta) <;> simp

-- Claim theorems

/-- C1 counterexample: with body parts [ok, ok, initFail] and an initially
empty display root, `configureScene` returns failure but the scene graph
holds the two renderables of the first two parts — not zero renderables as
the claim states. -/
theorem configureScene_third_fails_partial :
    configureScene [PartOutcome.ok, PartOutcome.ok, PartOutcome.initFail] 0 []
      = (false, [Renderable.bodyPart 0, Renderable.bodyPart 1])
    ∧ (configureScene
        [PartOutcome.ok, PartOutcome.ok, PartOutcome.initFail] 0 []).2.length
        ≠ 0 := by
  constructor
  · rfl
  · decide

/-- C1 amended: when the part at index `k` fails its construction or
initialization and all parts before it succeed, `configureScene` returns
failure, but composition is not atomic: exactly the `k` renderables of the
preceding successful parts remain attached to the display root. -/
theorem configureScene_fail_attaches_prefix (k : Nat) (f : PartOutcome)
    (hf : f ≠ PartOutcome.ok) (rest : List PartOutcome)
    (numObstacles : Nat) (root : List Renderable) :
    configureScene (List.replicate k PartOutcome.ok ++ f :: rest)
        numObstacles root
      = (false, root ++ (List.range k).map Renderable.bodyPart) := by
  unfold configureScene
  rw [configureSceneLoop_fail f hf rest k 0 root]
  simp [List.range_eq_range']

/-- Witness for the amended C1 theorem at a concrete input. -/
theorem configureScene_fail_attaches_prefix_witness :
    configureScene
        (List.replicate 2 PartOutcome.ok ++ PartOutcome.initFail :: []) 0 []
      = (false, [] ++ (List.range 2).map Renderable.bodyPart) :=
  configureScene_fail_attaches_prefix 2 PartOutcome.initFail (by decide) [] 0 []

/-- C3: with `paused = true`, `Viewer::frame` always draws, resets
`timeSinceLastFrame`, performs no capture, and returns
`mayAdvanceSimulation = false` — whatever the recording configuration,
simulated time, step counter, or clock delta. -/
theorem frame_paused_draws_and_blocks (cfg : ViewerConfig)
    (maxTimeBetweenFrames : ℚ) (s : ViewerState) (simulatedTime : ℚ)
    (numTimeSteps : Nat) (tickDelta : ℚ) :
    Viewer.frame cfg maxTimeBetweenFrames true s simulatedTime numTimeSteps
        tickDelta
      = some ⟨true, false, false, { s with timeSinceLastFrame := 0 }⟩ :=
  frame_paused_eq cfg maxTimeBetweenFrames s simulatedTime numTimeSteps
    tickDelta

/-- C10: the cadence test short-circuits on the recording flag, so with
recording disabled `frame` is defined for every record frequency, zero
included (as passed by the two non-recording constructors); with any
recording flag it is defined whenever `recordFrequency ≥ 1`; and with
recording enabled, `recordFrequency = 0`, and `paused = false` the C++
control flow reaches the unguarded modulo, so `frame` is undefined —
totality over all calls therefore needs `recordFrequency ≥ 1`. -/
theorem frame_totality (cfg : ViewerConfig) (maxTimeBetweenFrames : ℚ)
    (paused : Bool) (s : ViewerState) (simulatedTime : ℚ)
    (numTimeSteps : Nat) (tickDelta : ℚ) :
    (cfg.recording = false →
      (Viewer.frame cfg maxTimeBetweenFrames paused s simulatedTime
          numTimeSteps tickDelta).isSome = true)
    ∧ (1 ≤ cfg.recordFrequency →
      (Viewer.frame cfg maxTimeBetweenFrames paused s simulatedTime
          numTimeSteps tickDelta).isSome = true)
    ∧ (cfg.recording = true → cfg.recordFrequency = 0 → paused = false →
      Viewer.frame cfg maxTimeBetweenFrames paused s simulatedTime
          numTimeSteps tickDelta = none) := by
  refine ⟨fun hrec => ?_, fun hfreq => ?_, fun hrec hfreq hp => ?_⟩
  · exact frame_isSome_of_cadence cfg maxTimeBetweenFrames paused s
      simulatedTime numTimeSteps tickDelta false (by simp [cadence, hrec])
  · cases hrec : cfg.recording with
    | false =>
      exact frame_isSome_of_cadence cfg maxTimeBetweenFrames paused s
        simulatedTime numTimeSteps tickDelta false (by simp [cadence, hrec])
    | true =>
      exact frame_isSome_of_cadence cfg maxTimeBetweenFrames paused s
        simulatedTime numTimeSteps tickDelta
        (decide (numTimeSteps % cfg.recordFrequency = 0))
        (by simp [cadence, modTest, hrec, Nat.one_le_iff_ne_zero.mp hfreq])
  · subst hp
    simp [Viewer.frame, cadence, modTest, hrec, hfreq]

/-- C2: on every defined call to `Viewer::frame`, a frame is rendered if
and only if the disjunction `paused OR cadence OR (simulatedTime >
elapsedWallTime * speedFactor) OR (timeSinceLastFrame ≥ bound)` holds,
with the clock quantities taken after the tick update and the cadence
value `cap` given by `recording && (numTimeSteps % recordFrequency == 0)`. -/
theorem frame_draw_decision (cfg : ViewerConfig) (maxTimeBetweenFrames : ℚ)
    (paused : Bool) (s : ViewerState) (simulatedTime : ℚ) (numTimeSteps : Nat)
    (tickDelta : ℚ) (cap : Bool) (r : FrameResult)
    (hc : cadence cfg.recording cfg.recordFrequency numTimeSteps = some cap)
    (hr : Viewer.frame cfg maxTimeBetweenFrames paused s simulatedTime
        numTimeSteps tickDelta = some r) :
    r.drew = (paused || cap
      || throttled cfg (Viewer.tick paused s tickDelta) simulatedTime
      || starved maxTimeBetweenFrames (Viewer.tick paused s tickDelta)) := by
  rw [frame_characterization cfg maxTimeBetweenFrames paused s simulatedTime
    numTimeSteps tickDelta cap hc] at hr
  cases hr
  cases paused <;> cases cap <;>
    cases hth : throttled cfg (Viewer.tick _ s tickDelta) simulatedTime <;>
    cases hst : starved maxTimeBetweenFrames (Viewer.tick _ s tickDelta) <;>
    simp [hth, hst]

/-- Witness for the C2 theorem at a concrete input: paused, recording on
cadence. -/
theorem frame_draw_decision_witness :
    (⟨true, false, false, ⟨0, 0, 0, some ⟨"", false⟩⟩⟩ : FrameResult).drew
      = (true || true
        || throttled ⟨1, true, 1, "out"⟩
            (Viewer.tick true ⟨0, 0, 0, some ⟨"", false⟩⟩ 0) 0
        || starved 1 (Viewer.tick true ⟨0, 0, 0, some ⟨"", false⟩⟩ 0)) :=
  frame_draw_decision ⟨1, true, 1, "out"⟩ 1 true ⟨0, 0, 0, some ⟨"", false⟩⟩
    0 0 0 true ⟨true, false, false, ⟨0, 0, 0, some ⟨"", false⟩⟩⟩
    (by decide) (by rfl)

/-- C9: a defined call to `Viewer::frame` returns
`mayAdvanceSimulation = false` only when it actually rendered and reset
`timeSinceLastFrame` to zero, and every call that does not draw returns
`mayAdvanceSimulation = true`. -/
theorem frame_advance_draw_relation (cfg : ViewerConfig)
    (maxTimeBetweenFrames : ℚ) (paused : Bool) (s : ViewerState)
    (simulatedTime : ℚ) (numTimeSteps : Nat) (tickDelta : ℚ) (r : FrameResult)
    (hr : Viewer.frame cfg maxTimeBetweenFrames paused s simulatedTime
        numTimeSteps tickDelta = some r) :
    (r.mayAdvance = false →
      r.drew = true ∧ r.state.timeSinceLastFrame = 0)
    ∧ (r.drew = false → r.mayAdvance = true) := by
  cases paused with
  | true =>
    rw [frame_paused_eq] at hr
    cases hr
    simp
  | false =>
    cases hcad : cadence cfg.recording cfg.recordFrequency numTimeSteps with
    | none =>
      rw [frame_none_of_cadence_none cfg maxTimeBetweenFrames s simulatedTime
        numTimeSteps tickDelta hcad] at hr
      cases hr
    | some cap =>
      rw [frame_characterization cfg maxTimeBetweenFrames false s
        simulatedTime numTimeSteps tickDelta cap hcad] at hr
      cases hr
      split
      · simp
      · split
        · simp [record_timeSinceLastFrame]
        · split <;> simp

/-- Witness for the C9 theorem at a concrete input. -/
theorem frame_advance_draw_relation_witness :
    ((false : Bool) = false →
      (true : Bool) = true
      ∧ (FrameResult.state
          ⟨true, false, false, ⟨0, 0, 0, none⟩⟩).timeSinceLastFrame = 0)
    ∧ ((true : Bool) = false → (false : Bool) = true) := by
  have h := frame_advance_draw_relation ⟨1, false, 0, ""⟩ 1 true ⟨0, 0, 0, none⟩
    0 0 0 ⟨true, false, false, ⟨0, 0, 0, none⟩⟩ (by rfl)
  exact h

/-- C6 counterexample: from the freshly initialized clock, a single
unpaused call whose wall-clock delta is 2 against a starvation bound of 1
reaches the decision point with `timeSinceLastFrame = 2`, strictly above
the bound — and the draw it forces comes 2 seconds after the previous
frame, not within the bound. -/
theorem decision_time_exceeds_bound :
    (Viewer.tick false ⟨0, 0, 0, none⟩ 2).timeSinceLastFrame = 2
    ∧ ¬((Viewer.tick false ⟨0, 0, 0, none⟩ 2).timeSinceLastFrame ≤ 1)
    ∧ (Viewer.frame ⟨1, false, 0, ""⟩ 1 false ⟨0, 0, 0, none⟩ 0 0 2).map
        FrameResult.drew = some true := by
  refine ⟨by norm_num [Viewer.tick], by norm_num [Viewer.tick], ?_⟩
  norm_num [Viewer.frame, Viewer.tick, cadence, modTest, throttled, starved]

/-- C6 amended: what the code guarantees is the post-call invariant — for a
positive bound, every defined call leaves `timeSinceLastFrame` strictly
below the bound (a draw is forced no later than the call at which the
accumulated time reaches it), so at the decision point the accumulated
time exceeds the bound by at most the current tick's delta; it is not
bounded by the bound itself there. -/
theorem frame_keeps_timeSinceLastFrame_below_bound (cfg : ViewerConfig)
    (maxTimeBetweenFrames : ℚ) (paused : Bool) (s : ViewerState)
    (simulatedTime : ℚ) (numTimeSteps : Nat) (tickDelta : ℚ) (r : FrameResult)
    (hm : 0 < maxTimeBetweenFrames)
    (hr : Viewer.frame cfg maxTimeBetweenFrames paused s simulatedTime
        numTimeSteps tickDelta = some r) :
    r.state.timeSinceLastFrame < maxTimeBetweenFrames := by
  cases paused with
  | true =>
    rw [frame_paused_eq] at hr
    cases hr
    simpa using hm
  | false =>
    cases hcad : cadence cfg.recording cfg.recordFrequency numTimeSteps with
    | none =>
      rw [frame_none_of_cadence_none cfg maxTimeBetweenFrames s simulatedTime
        numTimeSteps tickDelta hcad] at hr
      cases hr
    | some cap =>
      rw [frame_characterization cfg maxTimeBetweenFrames false s
        simulatedTime numTimeSteps tickDelta cap hcad] at hr
      cases hr
      split
      · simpa using hm
      · split
        · show (Viewer.record cfg _).timeSinceLastFrame < _
          rw [record_timeSinceLastFrame]
          simpa using hm
        · split
          · simpa using hm
          · rename_i hst
            have hlt : ¬(maxTimeBetweenFrames ≤
                (Viewer.tick false s tickDelta).timeSinceLastFrame) := by
              simpa [starved] using hst
            exact lt_of_not_le hlt

/-- Witness for the amended C6 theorem at a concrete input. -/
theorem frame_keeps_timeSinceLastFrame_below_bound_witness :
    (0 : ℚ) < 1
    ∧ (FrameResult.state
        ⟨true, false, false, ⟨0, 0, 0, none⟩⟩).timeSinceLastFrame < 1 :=
  ⟨by decide,
   frame_keeps_timeSinceLastFrame_below_bound ⟨1, false, 0, ""⟩ 1 true
     ⟨0, 0, 0, none⟩ 0 0 0 ⟨true, false, false, ⟨0, 0, 0, none⟩⟩
     (by decide) (by rfl)⟩

/-- Witness for the C10 theorem: with recording on, zero frequency, and
unpaused, the concrete call is undefined. -/
theorem frame_totality_witness :
    Viewer.frame ⟨1, true, 0, "out"⟩ 1 false ⟨0, 0, 0, some ⟨"", false⟩⟩ 0 0 0
      = none :=
  (frame_totality ⟨1, true, 0, "out"⟩ 1 false ⟨0, 0, 0, some ⟨"", false⟩⟩
      0 0 0).2.2 rfl rfl rfl

/-- The clock update never touches the installed callback. -/
lemma tick_snap (paused : Bool) (s : ViewerState) (tickDelta : ℚ) :
    (Viewer.tick paused s tickDelta).snap = s.snap := by
  unfold Viewer.tick
  split <;> rfl

/-- Closed form of `Viewer::record` on the post-draw state (the ticked
state with `timeSinceLastFrame` reset), when the callback is installed. -/
lemma record_reset_state (cfg : ViewerConfig) (s1 : ViewerState)
    (cb : SnapState) (h : s1.snap = some cb) :
    Viewer.record cfg ⟨s1.elapsedWallTime, 0, s1.frameCount, s1.snap⟩
      = ⟨s1.elapsedWallTime, 0, s1.frameCount + 1,
         some ⟨cfg.recordDirectoryName ++ "/" ++ zeroPad4 s1.frameCount
           ++ ".jpg", true⟩⟩ := by
  simp [Viewer.record, h]

/-- The clock update never touches `frameCount`. -/
lemma tick_frameCount (paused : Bool) (s : ViewerState) (tickDelta : ℚ) :
    (Viewer.tick paused s tickDelta).frameCount = s.frameCount := by
  unfold Viewer.tick
  split <;> rfl

/-- Effect of one successful qualifying recording step: `frameCount` up by
one, the padded sequential file written, the callback disarmed. -/
lemma captureStep_spec (cfg : ViewerConfig) (s : ViewerState)
    (cb : SnapState) (files : List String) (h : s.snap = some cb) :
    captureStep cfg s files
      = (⟨s.elapsedWallTime, s.timeSinceLastFrame, s.frameCount + 1,
          some ⟨cfg.recordDirectoryName ++ "/" ++ zeroPad4 s.frameCount
            ++ ".jpg", false⟩⟩,
         files ++ [cfg.recordDirectoryName ++ "/" ++ zeroPad4 s.frameCount
            ++ ".jpg"]) := by
  simp [captureStep, Viewer.record, snapCallbackRun, h]

/-- Effect of `m` successful qualifying recording steps: the produced file
names are the padded indices `frameCount, frameCount+1, …` in order,
`frameCount` grows by `m`, and the callback stays installed. -/
lemma captureRun_spec (cfg : ViewerConfig) (m : Nat) :
    ∀ (s : ViewerState) (cb : SnapState) (files : List String),
      s.snap = some cb →
      (captureRun cfg m (s, files)).2
          = files ++ (List.range' s.frameCount m).map
              (fun i =>
                cfg.recordDirectoryName ++ "/" ++ zeroPad4 i ++ ".jpg")
        ∧ (captureRun cfg m (s, files)).1.frameCount = s.frameCount + m
        ∧ ∃ cb2, (captureRun cfg m (s, files)).1.snap = some cb2 := by
  induction m with
  | zero =>
    intro s cb files h
    exact ⟨by simp [captureRun], rfl, ⟨cb, h⟩⟩
  | succ k ih =>
    intro s cb files h
    have hrun : captureRun cfg (k + 1) (s, files)
        = captureRun cfg k (captureStep cfg s files) := rfl
    rw [hrun, captureStep_spec cfg s cb files h]
    obtain ⟨h1, h2, h3⟩ := ih
      ⟨s.elapsedWallTime, s.timeSinceLastFrame, s.frameCount + 1,
        some ⟨cfg.recordDirectoryName ++ "/" ++ zeroPad4 s.frameCount
          ++ ".jpg", false⟩⟩
      ⟨cfg.recordDirectoryName ++ "/" ++ zeroPad4 s.frameCount ++ ".jpg",
        false⟩
      (files ++ [cfg.recordDirectoryName ++ "/" ++ zeroPad4 s.frameCount
        ++ ".jpg"]) rfl
    refine ⟨?_, ?_, h3⟩
    · rw [h1]
      simp [List.range'_succ]
    · rw [h2]
      show s.frameCount + 1 + k = s.frameCount + (k + 1)
      omega

/-- C4 counterexample: recording enabled with frequency 1, step index 0 —
the cadence predicate `0 % 1 == 0` holds, yet the paused call dispatches no
capture: the early `return false` of line 247 precedes the recording test
of line 251. -/
theorem frame_capture_skipped_on_cadence :
    (0 : Nat) % 1 = 0
    ∧ (Viewer.frame ⟨1, true, 1, "out"⟩ 1 true ⟨0, 0, 0, some ⟨"", false⟩⟩
        0 0 0).map FrameResult.recorded = some false :=
  ⟨rfl, rfl⟩

/-- C4 amended: on a defined call with the callback installed, a capture is
dispatched if and only if the cadence predicate holds AND the call is
neither paused nor throttled (the early return path skips the dispatch);
each dispatched capture increments `frameCount` by one and arms the padded
sequential file name. -/
theorem frame_capture_dispatch (cfg : ViewerConfig)
    (maxTimeBetweenFrames : ℚ) (paused : Bool) (s : ViewerState)
    (simulatedTime : ℚ) (numTimeSteps : Nat) (tickDelta : ℚ) (cap : Bool)
    (r : FrameResult) (cb : SnapState)
    (hc : cadence cfg.recording cfg.recordFrequency numTimeSteps = some cap)
    (hsnap : s.snap = some cb)
    (hr : Viewer.frame cfg maxTimeBetweenFrames paused s simulatedTime
        numTimeSteps tickDelta = some r) :
    r.recorded = (cap && !paused
      && !(throttled cfg (Viewer.tick paused s tickDelta) simulatedTime))
    ∧ (r.recorded = true →
        r.state.frameCount = s.frameCount + 1
        ∧ r.state.snap = some
            ⟨cfg.recordDirectoryName ++ "/" ++ zeroPad4 s.frameCount
              ++ ".jpg", true⟩) := by
  rw [frame_characterization cfg maxTimeBetweenFrames paused s simulatedTime
    numTimeSteps tickDelta cap hc] at hr
  cases hr
  cases paused with
  | true => simp
  | false =>
    cases hth : throttled cfg (Viewer.tick false s tickDelta) simulatedTime
      with
    | true => simp [hth]
    | false =>
      cases cap with
      | false =>
        cases hst : starved maxTimeBetweenFrames
            (Viewer.tick false s tickDelta) <;> simp [hth, hst]
      | true =>
        have hsnap3 : (Viewer.tick false s tickDelta).snap = some cb := by
          rw [tick_snap]
          exact hsnap
        refine ⟨by simp, fun _ => ?_⟩
        rw [record_reset_state cfg (Viewer.tick false s tickDelta) cb hsnap3]
        simp [tick_frameCount]

/-- Witness for the amended C4 theorem at a concrete input. -/
theorem frame_capture_dispatch_witness :
    (⟨true, false, false, ⟨0, 0, 0, some ⟨"", false⟩⟩⟩ : FrameResult).recorded
      = (true && !true
        && !(throttled ⟨1, true, 1, "out"⟩
              (Viewer.tick true ⟨0, 0, 0, some ⟨"", false⟩⟩ 0) 0))
    ∧ ((⟨true, false, false,
          ⟨0, 0, 0, some ⟨"", false⟩⟩⟩ : FrameResult).recorded = true →
        (⟨true, false, false,
          ⟨0, 0, 0, some ⟨"", false⟩⟩⟩ : FrameResult).state.frameCount = 0 + 1
        ∧ (⟨true, false, false,
            ⟨0, 0, 0, some ⟨"", false⟩⟩⟩ : FrameResult).state.snap = some
              ⟨"out" ++ "/" ++ zeroPad4 0 ++ ".jpg", true⟩) :=
  frame_capture_dispatch ⟨1, true, 1, "out"⟩ 1 true
    ⟨0, 0, 0, some ⟨"", false⟩⟩ 0 0 0 true
    ⟨true, false, false, ⟨0, 0, 0, some ⟨"", false⟩⟩⟩ ⟨"", false⟩
    (by decide) rfl (by rfl)

/-- C5 counterexample: a dispatched capture whose write then fails —
`frameCount` has already advanced from 0 to 1 at arm time, so it does
increment although the write failed (and no file is produced, while the
flag is disarmed). -/
theorem frameCount_advances_despite_failed_write :
    (Viewer.record ⟨1, true, 1, "out"⟩
        ⟨0, 0, 0, some ⟨"", false⟩⟩).frameCount = 1
    ∧ (snapCallbackRun false ⟨"out/0000.jpg", true⟩ []).2 = []
    ∧ (snapCallbackRun false ⟨"out/0000.jpg", true⟩ []).1.snapImageOnNextFrame
        = false :=
  ⟨rfl, rfl, rfl⟩

/-- C5 amended: `frameCount` increments by exactly one at capture dispatch
time (when `Viewer::record` arms the one-shot flag), before and regardless
of the write outcome; the draw callback disarms the flag unconditionally
(no retry) and on a failed write produces no file, leaving the file list
unchanged — it never touches `frameCount`, so playback continues with the
counter already advanced. -/
theorem record_increments_and_failed_write_disarms (cfg : ViewerConfig)
    (s : ViewerState) (cb : SnapState) (files : List String) (writeOk : Bool)
    (h : s.snap = some cb) :
    (Viewer.record cfg s).frameCount = s.frameCount + 1
    ∧ ∀ cb2, (Viewer.record cfg s).snap = some cb2 →
        (snapCallbackRun writeOk cb2 files).1.snapImageOnNextFrame = false
        ∧ (writeOk = false →
            (snapCallbackRun writeOk cb2 files).2 = files) := by
  refine ⟨record_frameCount cfg s cb h, fun cb2 h2 => ?_⟩
  rw [record_snap cfg s cb h] at h2
  cases h2
  refine ⟨rfl, fun hw => ?_⟩
  subst hw
  rfl

/-- Witness for the amended C5 theorem at a concrete input. -/
theorem record_increments_and_failed_write_disarms_witness :
    (Viewer.record ⟨1, true, 1, "out"⟩
        ⟨0, 0, 0, some ⟨"", false⟩⟩).frameCount = 0 + 1
    ∧ ∀ cb2, (Viewer.record ⟨1, true, 1, "out"⟩
          ⟨0, 0, 0, some ⟨"", false⟩⟩).snap = some cb2 →
        (snapCallbackRun false cb2 []).1.snapImageOnNextFrame = false
        ∧ ((false : Bool) = false → (snapCallbackRun false cb2 []).2 = []) :=
  record_increments_and_failed_write_disarms ⟨1, true, 1, "out"⟩
    ⟨0, 0, 0, some ⟨"", false⟩⟩ ⟨"", false⟩ [] false rfl

/-- C7 counterexample: `Viewer::init` accepts a negative speed factor
together with recording enabled at frequency zero — the construction
succeeds and the resulting viewer is usable (a paused `frame` call runs
fine), so a viewer instance does exist in an invalid configuration. -/
theorem init_accepts_invalid_configuration :
    (Viewer.init false (-1) true 0 "out").1.speedFactor ≤ 0
    ∧ (Viewer.init false (-1) true 0 "out").1.recording = true
    ∧ (Viewer.init false (-1) true 0 "out").1.recordFrequency = 0
    ∧ (Viewer.frame (Viewer.init false (-1) true 0 "out").1 1 true
        (Viewer.init false (-1) true 0 "out").2 0 0 0).isSome = true :=
  ⟨by decide, rfl, rfl, rfl⟩

/-- C7 amended: construction performs no validation — `init` stores the
speed factor and record frequency verbatim, whatever they are, so invalid
configurations are representable and usable; the zero-record-frequency
hazard surfaces only later, as an undefined (modulo-by-zero) `frame` call
when recording and unpaused, not as a rejection at construction time. -/
theorem init_stores_config_unvalidated (startPaused : Bool)
    (speedFactor : ℚ) (recording : Bool) (recordFrequency : Nat)
    (dir : String) :
    (Viewer.init startPaused speedFactor recording recordFrequency dir).1
      = ⟨speedFactor, recording, recordFrequency, dir⟩
    ∧ (recording = true → recordFrequency = 0 →
        ∀ (maxTimeBetweenFrames simulatedTime tickDelta : ℚ)
          (s : ViewerState) (numTimeSteps : Nat),
          Viewer.frame
              (Viewer.init startPaused speedFactor recording recordFrequency
                dir).1
              maxTimeBetweenFrames false s simulatedTime numTimeSteps
              tickDelta = none) := by
  refine ⟨rfl, fun hrec hfreq maxT simT δ st n => ?_⟩
  apply frame_none_of_cadence_none
  simp [Viewer.init, cadence, modTest, hrec, hfreq]

/-- Witness for the amended C7 theorem at a concrete input. -/
theorem init_stores_config_unvalidated_witness :
    Viewer.frame (Viewer.init false (-1) true 0 "out").1 1 false
      ⟨0, 0, 0, some ⟨"", false⟩⟩ 0 0 0 = none :=
  (init_stores_config_unvalidated false (-1) true 0 "out").2 rfl rfl 1 0 0
    ⟨0, 0, 0, some ⟨"", false⟩⟩ 0

/-- C8: starting from the freshly initialized recorder (`frameCount = 0`,
callback installed), `m` captures with all writes succeeding produce
exactly the files `<dir>/0000.jpg, <dir>/0001.jpg, …` — the 4-digit
zero-padded sequential index starting at 0000, one file per capture, in
order — and leave `frameCount = m`. -/
theorem recording_filenames_sequential (cfg : ViewerConfig)
    (s : ViewerState) (cb : SnapState) (m : Nat) (h : s.snap = some cb)
    (h0 : s.frameCount = 0) :
    (captureRun cfg m (s, [])).2
        = (List.range m).map
            (fun i => cfg.recordDirectoryName ++ "/" ++ zeroPad4 i ++ ".jpg")
      ∧ (captureRun cfg m (s, [])).1.frameCount = m := by
  obtain ⟨h1, h2, h3⟩ := captureRun_spec cfg m s cb [] h
  rw [h0] at h1 h2
  constructor
  · rw [h1]
    simp [List.range_eq_range']
  · rw [h2]
    omega

/-- Witness for the C8 theorem at a concrete input: two captures from the
initial state yield `out/0000.jpg` then `out/0001.jpg` and a counter of 2. -/
theorem recording_filenames_sequential_witness :
    (captureRun ⟨1, true, 1, "out"⟩ 2 (⟨0, 0, 0, some ⟨"", false⟩⟩, [])).2
        = (List.range 2).map
            (fun i => "out" ++ "/" ++ zeroPad4 i ++ ".jpg")
      ∧ (captureRun ⟨1, true, 1, "out"⟩ 2
          (⟨0, 0, 0, some ⟨"", false⟩⟩, [])).1.frameCount = 2 :=
  recording_filenames_sequential ⟨1, true, 1, "out"⟩
    ⟨0, 0, 0, some ⟨"", false⟩⟩ ⟨"", false⟩ 2 rfl rfl

end Robogen
